import Mathlib

/-!
Verification of the Snowflake policy-impact simulator.

The frontend JavaScript (frontend/js/charts.js, app.js, simulator.js, api.js
and the two fallback Chart implementations) is embedded shallowly below:
pure functions become Lean functions over `ℚ`, `String` and lists, DOM/HTTP
effects become explicit data flow, and JavaScript numbers appearing in the
fallback chart arithmetic are modelled by a small IEEE-style value type with
explicit NaN/Infinity.  The Python simulation core (the `simulate`/`compare`
pipeline) is not part of the sources; every definition standing in for it is
marked `Modelled from the spec:` and follows the specification text.
-/

namespace Snowflake

/-! ## charts.js: the COLORS table and color helpers -/

/-- charts.js `COLORS.low`. -/
def COLORS_low : String := "#00c851"

/-- charts.js `COLORS.moderate`. -/
def COLORS_moderate : String := "#f39c12"

/-- charts.js `COLORS.high`. -/
def COLORS_high : String := "#e67e22"

/-- charts.js `COLORS.critical`. -/
def COLORS_critical : String := "#e74c3c"

/-- charts.js `COLORS.positive`. -/
def COLORS_positive : String := "#0095da"

/-- charts.js `COLORS.negative`. -/
def COLORS_negative : String := "#e74c3c"

/-- charts.js `COLORS.neutral`. -/
def COLORS_neutral : String := "#7f8c8d"

/-- The `COLORS` object literal of charts.js, as an association list in
source order (low, moderate, high, critical, positive, negative, neutral). -/
def COLORS : List (String × String) :=
  [("low", COLORS_low), ("moderate", COLORS_moderate), ("high", COLORS_high),
   ("critical", COLORS_critical), ("positive", COLORS_positive),
   ("negative", COLORS_negative), ("neutral", COLORS_neutral)]

/-- ASCII model of JavaScript `String.prototype.toLowerCase` on one
character: uppercase A-Z (codes 65-90) shift by 32, all else unchanged. -/
def jsCharLower (c : Char) : Char :=
  if 65 ≤ c.toNat ∧ c.toNat ≤ 90 then Char.ofNat (c.toNat + 32) else c

/-- ASCII model of JavaScript `String.prototype.toLowerCase`. -/
def toLowerCase (s : String) : String := ⟨s.data.map jsCharLower⟩

/-- charts.js `getRiskColor(level)` restricted to own-property access:
`COLORS[level.toLowerCase()] || COLORS.neutral` over the seven own keys.
JavaScript bracket access additionally consults the prototype chain;
`getRiskColorFull` below models that full semantics, and the two models
agree on every string whose lowercasing is not an `Object.prototype`
member name (theorem `getRiskColorFull_agrees`) — in particular on the
four risk levels and the three sentiment keys, which are own keys. -/
def getRiskColor (level : String) : String :=
  (COLORS.lookup (toLowerCase level)).getD COLORS_neutral

/-- The members a plain JavaScript object literal inherits from
`Object.prototype`, found by bracket access when the key is not an own
property; each is a function or object and hence truthy. -/
def objectPrototypeKeys : List String :=
  ["constructor", "hasOwnProperty", "isPrototypeOf", "propertyIsEnumerable",
   "toLocaleString", "toString", "valueOf", "__proto__",
   "__defineGetter__", "__defineSetter__", "__lookupGetter__", "__lookupSetter__"]

/-- A value produced by indexing the COLORS object literal: either a
string (one of the color values, or the neutral fallback) or a truthy
member inherited from `Object.prototype` — a function or object, not a
color. -/
inductive JsValue
  | str (s : String)
  | inheritedMember (name : String)
deriving DecidableEq

/-- JavaScript property read `COLORS[k]`: own keys first, then the
prototype chain; `none` when the property is undefined. -/
def indexCOLORS (k : String) : Option JsValue :=
  match COLORS.lookup k with
  | some v => some (.str v)
  | none => if k ∈ objectPrototypeKeys then some (.inheritedMember k) else none

/-- charts.js `getRiskColor(level)` with full JavaScript property-access
semantics: `COLORS[level.toLowerCase()] || COLORS.neutral`.  Every value
the property read can find — the nonempty color strings as well as the
inherited members — is truthy, so the `||` fallback applies exactly when
the property is undefined. -/
def getRiskColorFull (level : String) : JsValue :=
  (indexCOLORS (toLowerCase level)).getD (.str COLORS_neutral)

/-- charts.js `getRiskColorByScore(score)`: strict `<` threshold chain at
25, 50 and 75. -/
def getRiskColorByScore (score : ℚ) : String :=
  if score < 25 then COLORS_low
  else if score < 50 then COLORS_moderate
  else if score < 75 then COLORS_high
  else COLORS_critical

/-- app.js `SnowflakeApp.getRiskEmoji(level)`: switch on the lowercased
level with default `❓`. -/
def getRiskEmoji (level : String) : String :=
  let l := toLowerCase level
  if l = "low" then "✅"
  else if l = "moderate" then "⚠️"
  else if l = "high" then "🔴"
  else if l = "critical" then "🚨"
  else "❓"

/-- Modelled from the spec: the risk bucket assignment of the Risk Index
Calculator (§4.4), absent from the sources.  Half-open, lower bound
inclusive: Low `[0,25]`, Moderate `(25,50]`, High `(50,75]`,
Critical `(75,100]`. -/
def specRiskLevel (s : ℚ) : String :=
  if s ≤ 25 then "Low"
  else if s ≤ 50 then "Moderate"
  else if s ≤ 75 then "High"
  else "Critical"

/-! ## Data model of the simulation core

The Python backend is not among the sources; the definitions in this
section are modelled from the specification (§3, §4, §6, §7). -/

/-- Modelled from the spec: the closed set of policy types (§3), matching
the option values of the scenario form in simulator.js. -/
def policyTypes : List String :=
  ["Fuel Price Change", "Tax Reform", "Subsidy Change", "Minimum Wage Change",
   "Environmental Regulation", "Import/Export Tariff"]

/-- Modelled from the spec: the fixed 8-sector list (§3), with the sector
names documented in the repository README. -/
def allSectors : List String :=
  ["Agriculture", "Manufacturing", "Services", "Transport", "Energy",
   "Healthcare", "Education", "IT"]

/-- Modelled from the spec: `PolicyInput` (§3). -/
structure PolicyInput where
  policy_type : String
  magnitude : ℚ
  duration_months : ℤ
  affected_sectors : Option (List String)
  description : String
deriving DecidableEq

/-- Modelled from the spec: the error taxonomy (§7). -/
inductive SimError
  | invalidInput
  | modelUnavailable
  | numericInstability
deriving DecidableEq

/-- Modelled from the spec: `EconomicBaseline` (§3). -/
structure EconomicBaseline where
  inflation : ℚ
  interest_rate : ℚ
  money_supply_growth : ℚ

/-- Modelled from the spec: the inflation feature vector (§4.1). -/
structure Features where
  fuel_price_change : ℚ
  tax_rate_change : ℚ
  subsidy_change : ℚ
  interest_rate : ℚ
  money_supply_growth : ℚ

/-- Which feature the policy magnitude maps onto (§4.1). -/
inductive FeatureKind
  | fuelPrice
  | taxRate
  | subsidy
deriving DecidableEq

/-- Modelled from the spec: `SensitivityProfile` (§3): per-sector direct
impact weights, an inequality-direction flag and the inflation feature
mapping rule. -/
structure SensitivityProfile where
  weight : String → ℚ
  regressive : Bool
  feature : FeatureKind

/-- Modelled from the spec: the immutable collaborator data and injected
capabilities (§6): baseline snapshot, trained inflation model, text
polarity scorer, interdependency matrix, sensitivity profile table and the
sentiment template table keyed by policy type and magnitude sign. -/
structure Config where
  baseline : EconomicBaseline
  predict : Features → ℚ × ℚ
  polarity : String → ℚ
  matrix : String → String → ℚ
  profiles : String → SensitivityProfile
  templates : String → Bool → List String

/-- Modelled from the spec: `inflation_impact` of `SimulationResult` (§3). -/
structure InflationImpact where
  predicted_rate : ℚ
  baseline : ℚ
  change_from_baseline : ℚ
  confidence : ℚ
deriving DecidableEq

/-- Modelled from the spec: `sector_impacts` of `SimulationResult` (§3);
each entry pairs a sector name with its score. -/
structure SectorImpactsPart where
  impacts : List (String × ℚ)
  most_affected : List (String × ℚ)
deriving DecidableEq

/-- Modelled from the spec: `sentiment_analysis` of `SimulationResult` (§3). -/
structure SentimentAnalysis where
  positive_ratio : ℚ
  negative_ratio : ℚ
  neutral_ratio : ℚ
  overall_score : ℚ
  category : String
  social_unrest_probability : ℚ
  key_concerns : List String
deriving DecidableEq

/-- Modelled from the spec: the four risk components (§4.4). -/
structure RiskComponents where
  economic : ℚ
  sector_disruption : ℚ
  social_unrest : ℚ
  inequality : ℚ
deriving DecidableEq

/-- Modelled from the spec: `risk_assessment` of `SimulationResult` (§3). -/
structure RiskAssessment where
  composite_score : ℚ
  level : String
  components : RiskComponents
deriving DecidableEq

/-- Modelled from the spec: `SimulationResult` (§3). -/
structure SimulationResult where
  inflation_impact : InflationImpact
  sector_impacts : SectorImpactsPart
  sentiment_analysis : SentimentAnalysis
  risk_assessment : RiskAssessment
  recommendations : List String
deriving DecidableEq

/-! ## The simulation pipeline (modelled from the spec, §4) -/

/-- Modelled from the spec: duration damping (§4.1):
`effective_magnitude = magnitude * min(1, 12 / duration_months)`. -/
def effectiveMagnitude (p : PolicyInput) : ℚ :=
  p.magnitude * min 1 (12 / (p.duration_months : ℚ))

/-- Modelled from the spec: feature derivation (§4.1): the effective
magnitude is mapped onto the feature dictated by the policy type's
profile, baseline indicators fill the remaining features. -/
def featuresFor (cfg : Config) (p : PolicyInput) : Features :=
  let em := effectiveMagnitude p
  let base : Features :=
    ⟨0, 0, 0, cfg.baseline.interest_rate, cfg.baseline.money_supply_growth⟩
  match (cfg.profiles p.policy_type).feature with
  | .fuelPrice => { base with fuel_price_change := em }
  | .taxRate => { base with tax_rate_change := em }
  | .subsidy => { base with subsidy_change := em }

/-- Modelled from the spec: the Inflation Predictor (§4.1): invoke the
injected model and compute `change_from_baseline`. -/
def inflationImpact (cfg : Config) (p : PolicyInput) : InflationImpact :=
  let pr := cfg.predict (featuresFor cfg p)
  ⟨pr.1, cfg.baseline.inflation, pr.1 - cfg.baseline.inflation, pr.2⟩

/-- Clipping to `[-1, 1]` (§4.2). -/
def clipUnit (x : ℚ) : ℚ := max (-1) (min 1 x)

/-- Clipping to `[0, 1]` (§4.3). -/
def clip01 (x : ℚ) : ℚ := max 0 (min 1 x)

/-- Clipping to `[0, 100]` (§4.4). -/
def clip100 (x : ℚ) : ℚ := max 0 (min 100 x)

/-- Modelled from the spec: direct sector impact (§4.2):
`direct[s] = profile.weight[s] * (effective_magnitude / 100)`, restricted
to the caller-supplied sector subset when one is given. -/
def directImpact (cfg : Config) (p : PolicyInput) (s : String) : ℚ :=
  match p.affected_sectors with
  | none => (cfg.profiles p.policy_type).weight s * (effectiveMagnitude p / 100)
  | some l =>
    if s ∈ l then (cfg.profiles p.policy_type).weight s * (effectiveMagnitude p / 100)
    else 0

/-- One application of the interdependency matrix (§4.2): the row sector's
shock influences the column sector. -/
def matApply (cfg : Config) (v : String → ℚ) (s : String) : ℚ :=
  (allSectors.map (fun t => cfg.matrix t s * v t)).sum

/-- Modelled from the spec: the propagation damping factor (§4.2),
`damping < 1`, chosen as 0.5. -/
def damping : ℚ := 1 / 2

/-- First propagation round (§4.2): `indirect = damping * (M × direct)`. -/
def indirect1 (cfg : Config) (p : PolicyInput) (s : String) : ℚ :=
  damping * matApply cfg (directImpact cfg p) s

/-- Second propagation round (§4.2): `indirect2 = damping * (M × indirect)`. -/
def indirect2 (cfg : Config) (p : PolicyInput) (s : String) : ℚ :=
  damping * matApply cfg (indirect1 cfg p) s

/-- Total per-sector score (§4.2): `direct + indirect + indirect2`,
clipped to `[-1, 1]`. -/
def sectorScore (cfg : Config) (p : PolicyInput) (s : String) : ℚ :=
  clipUnit (directImpact cfg p s + indirect1 cfg p s + indirect2 cfg p s)

/-- The per-sector impact table over the fixed 8-sector list. -/
def sectorImpacts (cfg : Config) (p : PolicyInput) : List (String × ℚ) :=
  allSectors.map (fun s => (s, sectorScore cfg p s))

/-- Ordering key for `most_affected` (§4.2): absolute score descending
(encoded as negated absolute score ascending), ties by sector name
ascending. -/
def impactKey (x : String × ℚ) : Lex (ℚ × String) := toLex (-|x.2|, x.1)

/-- The `most_affected` order: `impactLE a b` means `a` ranks at or before
`b` (larger absolute score first, names ascending on ties). -/
def impactLE (a b : String × ℚ) : Prop := impactKey a ≤ impactKey b

instance : DecidableRel impactLE := fun a b =>
  inferInstanceAs (Decidable (impactKey a ≤ impactKey b))

instance : IsTotal (String × ℚ) impactLE :=
  ⟨fun a b => le_total (impactKey a) (impactKey b)⟩

instance : IsTrans (String × ℚ) impactLE :=
  ⟨fun _ _ _ h h' => le_trans h h'⟩

/-- Modelled from the spec: `most_affected` (§4.2) = top-3 sectors by
absolute score descending, ties broken by sector name ascending. -/
def mostAffected (impacts : List (String × ℚ)) : List (String × ℚ) :=
  (List.insertionSort impactLE impacts).take 3

/-- Modelled from the spec: placeholder substitution in a sentiment
template (§4.3), filling magnitude and duration markers from the input. -/
def fillTemplate (p : PolicyInput) (t : String) : String :=
  (t.replace "__magnitude__" (toString p.magnitude)).replace
    "__duration__" (toString p.duration_months)

/-- Modelled from the spec: the synthetic reaction population (§4.3),
generated from the template table keyed by policy type and the sign of the
effective magnitude, in fixed table order. -/
def reactions (cfg : Config) (p : PolicyInput) : List String :=
  (cfg.templates p.policy_type (decide (0 ≤ effectiveMagnitude p))).map (fillTemplate p)

/-- First-seen deduplication of a token list (§4.3 tie-breaking for
`key_concerns`). -/
def firstSeen (l : List String) : List String :=
  l.foldl (fun acc w => if w ∈ acc then acc else acc ++ [w]) []

/-- Keyword frequency order: more frequent tokens first. -/
def concernGE (tokens : List String) (a b : String) : Prop :=
  tokens.count b ≤ tokens.count a

instance (tokens : List String) : DecidableRel (concernGE tokens) := fun a b =>
  inferInstanceAs (Decidable (tokens.count b ≤ tokens.count a))

/-- Modelled from the spec: `key_concerns` (§4.3) = the 3 most frequent
keywords of the negative-leaning reactions, ties broken by first-seen
order (a stable sort over the first-seen token list). -/
def keyConcerns (negRs : List String) : List String :=
  let tokens := negRs.flatMap (fun r => r.splitOn " ")
  (List.insertionSort (concernGE tokens) (firstSeen tokens)).take 3

/-- Modelled from the spec: the Sentiment Synthesizer (§4.3): score every
reaction with the injected polarity scorer, classify with the 0.1
thresholds, aggregate ratios as percentages of the population, and derive
the unrest probability as the normalized product of the negative ratio and
the absolute effective magnitude, clipped to `[0, 1]`. -/
def sentimentAnalysis (cfg : Config) (p : PolicyInput) : SentimentAnalysis :=
  let rs := reactions cfg p
  let scores := rs.map cfg.polarity
  let n : ℚ := rs.length
  let posCount : ℚ := scores.countP (fun x => decide (1/10 < x))
  let negCount : ℚ := scores.countP (fun x => decide (x < -(1/10)))
  let posR := if n = 0 then 0 else 100 * posCount / n
  let negR := if n = 0 then 0 else 100 * negCount / n
  let overall := if n = 0 then 0 else scores.sum / n
  let category :=
    if 1/10 < overall then "Positive"
    else if overall < -(1/10) then "Negative"
    else "Neutral"
  let unrest := clip01 ((negR / 100) * (|effectiveMagnitude p| / 50))
  let negTexts := (rs.zip scores).filterMap
    (fun x => if x.2 < -(1/10) then some x.1 else none)
  ⟨posR, negR, 100 - posR - negR, overall, category, unrest, keyConcerns negTexts⟩

/-- Modelled from the spec: the four risk components (§4.4), each clipped
to `[0, 100]`; the economic component discounts the scaled inflation
deviation by the model confidence and adds a confidence-independent
floor of 5. -/
def riskComponents (cfg : Config) (p : PolicyInput) : RiskComponents :=
  let infl := inflationImpact cfg p
  let impacts := sectorImpacts cfg p
  let senti := sentimentAnalysis cfg p
  let econ := clip100 (min 100 (|infl.change_from_baseline| * 10) * (infl.confidence / 100) + 5)
  let sect := clip100 ((impacts.map (fun x => |x.2|)).sum / 8 * 100)
  let soc := clip100 (60 * senti.social_unrest_probability + (2/5) * senti.negative_ratio)
  let ineq := clip100 (|effectiveMagnitude p| *
    (if (cfg.profiles p.policy_type).regressive then 2 else 1))
  ⟨econ, sect, soc, ineq⟩

/-- Modelled from the spec: composite risk (§4.4):
`0.35*economic + 0.25*sector_disruption + 0.25*social_unrest +
0.15*inequality`, clipped to `[0, 100]`, bucketed by `specRiskLevel`. -/
def riskAssessment (cfg : Config) (p : PolicyInput) : RiskAssessment :=
  let c := riskComponents cfg p
  let score := clip100 ((35/100) * c.economic + (25/100) * c.sector_disruption +
    (25/100) * c.social_unrest + (15/100) * c.inequality)
  ⟨score, specRiskLevel score, c⟩

/-- Modelled from the spec: the additive, fixed-priority recommendation
rules of the Scenario Orchestrator (§4.5). -/
def recommendationsFor (risk : RiskAssessment) (senti : SentimentAnalysis)
    (most : List (String × ℚ)) : List String :=
  (if risk.level = "High" ∨ risk.level = "Critical" then
    ["Implement strong mitigation measures before rollout."] else []) ++
  (if senti.category = "Negative" then
    ["Enhance public communication and stakeholder engagement."] else []) ++
  (match most with
   | x :: _ => ["Provide targeted support to the " ++ x.1 ++ " sector."]
   | [] => [])

/-- Modelled from the spec: the Scenario Orchestrator (§4.5) assembling a
`SimulationResult` from the three independent estimators and the risk
calculator. -/
def buildResult (cfg : Config) (p : PolicyInput) : SimulationResult :=
  let infl := inflationImpact cfg p
  let impacts := sectorImpacts cfg p
  let senti := sentimentAnalysis cfg p
  let risk := riskAssessment cfg p
  ⟨infl, ⟨impacts, mostAffected impacts⟩, senti, risk,
    recommendationsFor risk senti (mostAffected impacts)⟩

/-- Modelled from the spec: input validation (§7): magnitude in
`[-50, 50]`, duration in `[1, 60]`, known policy type, and any supplied
sectors drawn from the fixed 8-sector list. -/
def validateB (p : PolicyInput) : Bool :=
  decide (-50 ≤ p.magnitude) && decide (p.magnitude ≤ 50) &&
  decide (1 ≤ p.duration_months) && decide (p.duration_months ≤ 60) &&
  policyTypes.contains p.policy_type &&
  (match p.affected_sectors with
   | none => true
   | some l => l.all (fun s => allSectors.contains s))

/-- Modelled from the spec: `simulate` (§6): validation first, returning
`InvalidInputError` immediately with no computation attempted, otherwise
the orchestrated result. -/
def simulate (cfg : Config) (p : PolicyInput) : Except SimError SimulationResult :=
  if validateB p then .ok (buildResult cfg p) else .error .invalidInput

/-- Modelled from the spec: eligibility of sectors for direct impact (§3):
an absent `affected_sectors` makes all 8 sectors eligible. -/
def eligibleSectors (o : Option (List String)) : List String :=
  o.getD allSectors

/-! ## Comparison Engine (modelled from the spec, §4.6) -/

/-- A named scenario submitted to `compare`. -/
structure NamedScenario where
  name : String
  policy : PolicyInput
deriving DecidableEq

/-- The per-scenario data the ranking consumes. -/
structure ScenarioOutcome where
  name : String
  inflation_rate : ℚ
  risk_score : ℚ
  risk_level : String
  sentiment : String
deriving DecidableEq

/-- Project a simulation result to the comparison row data. -/
def outcomeOf (name : String) (r : SimulationResult) : ScenarioOutcome :=
  ⟨name, r.inflation_impact.predicted_rate, r.risk_assessment.composite_score,
    r.risk_assessment.level, r.sentiment_analysis.category⟩

/-- Ranking key (§4.6): composite score ascending, ties by predicted rate
ascending, then by scenario name ascending. -/
def outcomeKey (o : ScenarioOutcome) : Lex (ℚ × Lex (ℚ × String)) :=
  toLex (o.risk_score, toLex (o.inflation_rate, o.name))

/-- The ranking order on scenario outcomes. -/
def outcomeLE (a b : ScenarioOutcome) : Prop := outcomeKey a ≤ outcomeKey b

instance : DecidableRel outcomeLE := fun a b =>
  inferInstanceAs (Decidable (outcomeKey a ≤ outcomeKey b))

instance : IsTotal ScenarioOutcome outcomeLE :=
  ⟨fun a b => le_total (outcomeKey a) (outcomeKey b)⟩

instance : IsTrans ScenarioOutcome outcomeLE :=
  ⟨fun _ _ _ h h' => le_trans h h'⟩

/-- One row of the emitted `comparison_table` (§3): exactly the fields
rank, name, inflation_rate, risk_score, risk_level, sentiment. -/
structure TableRow where
  rank : ℕ
  name : String
  inflation_rate : ℚ
  risk_score : ℚ
  risk_level : String
  sentiment : String
deriving DecidableEq

/-- Attach a rank to an outcome. -/
def rowOf (rank : ℕ) (o : ScenarioOutcome) : TableRow :=
  ⟨rank, o.name, o.inflation_rate, o.risk_score, o.risk_level, o.sentiment⟩

/-- The ranking order lifted to table rows. -/
def rowLE (a b : TableRow) : Prop :=
  toLex (a.risk_score, toLex (a.inflation_rate, a.name)) ≤
    toLex (b.risk_score, toLex (b.inflation_rate, b.name))

/-- Tail of the comparison recommendation, contrasting the best scenario
against the worst-ranked one (§4.6). -/
def recTail (best worst : ScenarioOutcome) : String :=
  " is recommended: composite risk " ++ toString best.risk_score ++
  " and inflation " ++ toString best.inflation_rate ++ "%, versus risk " ++
  toString worst.risk_score ++ " and inflation " ++
  toString worst.inflation_rate ++ "% for " ++ worst.name ++ "."

/-- Modelled from the spec: the natural-language recommendation (§4.6),
naming the rank-1 scenario and contrasting it with the worst-ranked one. -/
def recommendationText (best worst : ScenarioOutcome) : String :=
  "Based on the analysis, " ++ best.name ++ recTail best worst

/-- Recommendation from the sorted outcome list. -/
def comparisonRecommendation (sorted : List ScenarioOutcome) : String :=
  match sorted, sorted.getLast? with
  | best :: _, some worst => recommendationText best worst
  | _, _ => ""

/-- Modelled from the spec: `ComparisonResult` (§3). -/
structure ComparisonResult where
  comparison_table : List TableRow
  recommendation : String
deriving DecidableEq

/-- Run the orchestrator on one named scenario. -/
def runScenario (cfg : Config) (sc : NamedScenario) : Except SimError ScenarioOutcome :=
  (simulate cfg sc.policy).map (outcomeOf sc.name)

/-- Sequenced error-propagating map over the scenario list. -/
def mapMExcept {α β ε : Type} (f : α → Except ε β) : List α → Except ε (List β)
  | [] => .ok []
  | a :: l => do
    let b ← f a
    let rest ← mapMExcept f l
    .ok (b :: rest)

/-- Modelled from the spec: `compare` (§4.6): fewer than 2 scenarios fail
with `InvalidInputError` before any simulation runs; otherwise every
scenario is simulated, outcomes are sorted by the ranking order and
emitted with 1-based ranks plus the recommendation. -/
def compare (cfg : Config) (scenarios : List NamedScenario) :
    Except SimError ComparisonResult :=
  if scenarios.length < 2 then .error .invalidInput
  else
    match mapMExcept (runScenario cfg) scenarios with
    | .error e => .error e
    | .ok outcomes =>
      let sorted := List.insertionSort outcomeLE outcomes
      .ok ⟨(sorted.enumFrom 1).map (fun x => rowOf x.1 x.2),
        comparisonRecommendation sorted⟩

/-! ## simulator.js: UI layer embeddings -/

/-- simulator.js `handleSimulation`: the `affected_sectors` field is the
checked-sector list when nonempty, `null` otherwise
(`affectedSectors.length > 0 ? affectedSectors : null`). -/
def affectedSectorsPayload (checked : List String) : Option (List String) :=
  if checked.length > 0 then some checked else none

/-- The scenario-entry form constraints of simulator.js `addScenario`. -/
structure ScenarioFormSpec where
  magnitudeMin : ℚ
  magnitudeMax : ℚ
  magnitudeStep : ℚ
  durationMin : ℤ
  durationMax : ℤ
  policyOptions : List String

/-- simulator.js `addScenario` form template: the magnitude input has
`min="-50" max="50" step="0.5"`, the duration input has `min="1"
max="60"`, and the policy select offers exactly the six policy types (the
empty placeholder option excluded). -/
def scenarioForm : ScenarioFormSpec :=
  ⟨-50, 50, 1/2, 1, 60,
   ["Fuel Price Change", "Tax Reform", "Subsidy Change", "Minimum Wage Change",
    "Environmental Regulation", "Import/Export Tariff"]⟩

/-- One `.scenario-item` element's field values as read by
`handleComparison`; a `none` magnitude or duration models a `NaN` parse. -/
structure ScenarioElement where
  name : String
  policy_type : String
  magnitude : Option ℚ
  duration : Option ℤ
deriving DecidableEq

/-- Field collection for one scenario element in `handleComparison`:
the early `return` on a missing field is modelled as `none`. -/
def readScenarioElement (e : ScenarioElement) : Option NamedScenario :=
  match e.magnitude, e.duration with
  | some m, some d =>
    if e.name = "" ∨ e.policy_type = "" then none
    else some ⟨e.name, ⟨e.policy_type, m, d, none, ""⟩⟩
  | _, _ => none

/-- Option-valued sequencing of the element loop. -/
def collectScenarios : List ScenarioElement → Option (List NamedScenario)
  | [] => some []
  | e :: es => do
    let sc ← readScenarioElement e
    let rest ← collectScenarios es
    some (sc :: rest)

/-- simulator.js `handleComparison`: with fewer than 2 scenario elements
it alerts and returns without calling the compare API (modelled as
`none`); otherwise it collects the element fields into the request
payload. -/
def handleComparison (elements : List ScenarioElement) :
    Option (List NamedScenario) :=
  if elements.length < 2 then none
  else collectScenarios elements

/-- simulator.js `updateSummaryCards`: the sector names shown in the
summary card, `most_affected.slice(0, 3).map(s => s.sector)`. -/
def summaryAffectedNames (most : List (String × ℚ)) : List String :=
  (most.take 3).map Prod.fst

/-- simulator.js `updateSummaryCards`: the joined display text,
`.join(', ')`. -/
def summaryAffectedText (most : List (String × ℚ)) : String :=
  String.intercalate ", " (summaryAffectedNames most)

/-! ## simulator.js: the scenario-list state machine -/

/-- The UI state relevant to the compare button: `this.scenarios` and the
`disabled` flag of `#compare-btn`. -/
structure UIState where
  scenarios : List ℕ
  compareDisabled : Bool
deriving DecidableEq

/-- Initial state: empty scenario list, compare button disabled. -/
def initialUIState : UIState := ⟨[], true⟩

/-- User events on the scenario list. -/
inductive UIEvent
  | add (id : ℕ)
  | remove (id : ℕ)
deriving DecidableEq

/-- simulator.js `addScenario` and `removeScenario`: add pushes the id and
enables the button only when the list has reached length 2; remove filters
the id out and disables the button only when the list has dropped below
length 2; in all other cases the flag is left unchanged. -/
def stepUI (s : UIState) : UIEvent → UIState
  | .add id =>
    let scenarios := s.scenarios ++ [id]
    ⟨scenarios, if 2 ≤ scenarios.length then false else s.compareDisabled⟩
  | .remove id =>
    let scenarios := s.scenarios.filter (fun x => x != id)
    ⟨scenarios, if scenarios.length < 2 then true else s.compareDisabled⟩

/-- Run an event sequence from the initial state. -/
def runUI (events : List UIEvent) : UIState :=
  events.foldl stepUI initialUIState

/-! ## The fallback Chart implementations

JavaScript numbers in the fallback pie renderer are modelled by rationals
extended with NaN and the two infinities, with IEEE-754 propagation in the
operations the renderer performs. -/

/-- A JavaScript number: finite value, NaN, or ±Infinity. -/
inductive JsNum
  | num (q : ℚ)
  | nan
  | inf
  | ninf
deriving DecidableEq

/-- JavaScript `+` on numbers. -/
def jsAdd : JsNum → JsNum → JsNum
  | .num a, .num b => .num (a + b)
  | .nan, _ => .nan
  | _, .nan => .nan
  | .inf, .ninf => .nan
  | .ninf, .inf => .nan
  | .inf, _ => .inf
  | _, .inf => .inf
  | .ninf, _ => .ninf
  | _, .ninf => .ninf

/-- JavaScript `*` on numbers. -/
def jsMul : JsNum → JsNum → JsNum
  | .num a, .num b => .num (a * b)
  | .nan, _ => .nan
  | _, .nan => .nan
  | .inf, .num b => if b = 0 then .nan else if 0 < b then .inf else .ninf
  | .num a, .inf => if a = 0 then .nan else if 0 < a then .inf else .ninf
  | .ninf, .num b => if b = 0 then .nan else if 0 < b then .ninf else .inf
  | .num a, .ninf => if a = 0 then .nan else if 0 < a then .ninf else .inf
  | .inf, .inf => .inf
  | .inf, .ninf => .ninf
  | .ninf, .inf => .ninf
  | .ninf, .ninf => .inf

/-- JavaScript `/` on numbers: `0/0` is NaN, a nonzero value divided by
zero is a signed infinity. -/
def jsDiv : JsNum → JsNum → JsNum
  | .num a, .num b =>
    if b = 0 then (if a = 0 then .nan else if 0 < a then .inf else .ninf)
    else .num (a / b)
  | .nan, _ => .nan
  | _, .nan => .nan
  | .inf, .num b => if 0 ≤ b then .inf else .ninf
  | .ninf, .num b => if 0 ≤ b then .ninf else .inf
  | .num _, .inf => .num 0
  | .num _, .ninf => .num 0
  | _, _ => .nan

/-- The unguarded total of `renderPieChart`:
`data.reduce((sum, val) => sum + val, 0)`. -/
def jsSum (data : List JsNum) : JsNum :=
  data.foldl jsAdd (.num 0)

end Snowflake

namespace FallbackChart000

/-- The slice-angle computation of `renderPieChart` in the first fallback
Chart implementation (src/unnamed/part_000): each slice spans
`(value / total) * 2 * Math.PI` where `total` is the unguarded sum of the
dataset; `twoPi` stands for the constant `2 * Math.PI`. -/
def sliceAngles (twoPi : Snowflake.JsNum) (data : List Snowflake.JsNum) :
    List Snowflake.JsNum :=
  let total := Snowflake.jsSum data
  data.map (fun value => Snowflake.jsMul (Snowflake.jsDiv value total) twoPi)

end FallbackChart000

namespace FallbackChart001

/-- The slice-angle computation of `renderPieChart` in the second fallback
Chart implementation (src/unnamed/part_001); the code is identical to the
first copy. -/
def sliceAngles (twoPi : Snowflake.JsNum) (data : List Snowflake.JsNum) :
    List Snowflake.JsNum :=
  let total := Snowflake.jsSum data
  data.map (fun value => Snowflake.jsMul (Snowflake.jsDiv value total) twoPi)

end FallbackChart001

namespace Snowflake

/-! ## Test fixtures used by the witness theorems -/

/-- A concrete baseline snapshot. -/
def testBaseline : EconomicBaseline := ⟨11/2, 13/2, 10⟩

/-- A concrete sensitivity profile. -/
def testProfile : SensitivityProfile := ⟨fun _ => 1/2, true, .fuelPrice⟩

/-- A concrete configuration with deterministic stub capabilities, as the
spec prescribes for tests (§9). -/
def testCfg : Config :=
  ⟨testBaseline, fun _ => (6, 85), fun _ => 0, fun _ _ => 1/10,
   fun _ => testProfile, fun _ _ => ["prices will rise", "costs hurt households"]⟩

/-- A concrete valid policy input (the spec's end-to-end fixture shape). -/
def testPolicy : PolicyInput := ⟨"Fuel Price Change", 20, 12, none, ""⟩

/-! ## General helper lemmas -/

/-- A successful association-list lookup returns one of the stored values. -/
theorem lookup_mem_snd {α β : Type} [BEq α] {l : List (α × β)} {k : α} {v : β}
    (h : l.lookup k = some v) : v ∈ l.map Prod.snd := by
  induction l with
  | nil => simp [List.lookup] at h
  | cons x xs ih =>
    obtain ⟨k', v'⟩ := x
    simp only [List.lookup] at h
    by_cases hk : (k == k') = true
    · rw [hk] at h
      simp only [Option.some.injEq] at h
      simp [← h]
    · rw [Bool.eq_false_iff.mpr hk] at h
      simp [ih h]

/-- Lookup of a key that is not among the stored keys fails. -/
theorem lookup_eq_none_of_not_mem {α β : Type} [BEq α] [LawfulBEq α]
    {l : List (α × β)} {k : α} (h : k ∉ l.map Prod.fst) : l.lookup k = none := by
  induction l with
  | nil => simp [List.lookup]
  | cons x xs ih =>
    obtain ⟨k', v'⟩ := x
    simp only [List.map, List.mem_cons, not_or] at h
    simp only [List.lookup, beq_eq_false_iff_ne.mpr h.1]
    exact ih h.2

/-- Lookup of a stored key succeeds. -/
theorem lookup_isSome_of_mem_keys {α β : Type} [BEq α] [LawfulBEq α]
    {l : List (α × β)} {k : α} (h : k ∈ l.map Prod.fst) :
    ∃ v, l.lookup k = some v := by
  induction l with
  | nil => simp at h
  | cons x xs ih =>
    obtain ⟨k', v'⟩ := x
    by_cases hk : k = k'
    · exact ⟨v', by simp [List.lookup, hk]⟩
    · have hmem : k ∈ xs.map Prod.fst := by
        simp only [List.map, List.mem_cons] at h
        rcases h with h | h
        · exact absurd h hk
        · exact h
      obtain ⟨v, hv⟩ := ih hmem
      exact ⟨v, by simp only [List.lookup, beq_eq_false_iff_ne.mpr hk]; exact hv⟩

/-- The own-key color model agrees with the full property-access model on
every string whose lowercasing is not an `Object.prototype` member name. -/
theorem getRiskColorFull_agrees (level : String)
    (h : toLowerCase level ∉ objectPrototypeKeys) :
    getRiskColorFull level = .str (getRiskColor level) := by
  unfold getRiskColorFull getRiskColor indexCOLORS
  cases hl : COLORS.lookup (toLowerCase level) with
  | none => simp [h]
  | some v => rfl

/-- Sorted lists that are permutations of one another are equal, provided
the order is antisymmetric on the elements involved. -/
theorem sortedPermEq {α : Type} {r : α → α → Prop} :
    ∀ {l₁ l₂ : List α}, l₁.Perm l₂ → l₁.Sorted r → l₂.Sorted r →
      (∀ a ∈ l₁, ∀ b ∈ l₁, r a b → r b a → a = b) → l₁ = l₂
  | [], _, hp, _, _, _ => hp.nil_eq
  | a :: t₁, [], hp, _, _, _ => by simpa using hp.length_eq
  | a :: t₁, b :: t₂, hp, hs₁, hs₂, ha => by
    have hab : a = b := by
      by_contra hne
      have hbmem : b ∈ a :: t₁ := hp.mem_iff.mpr (List.mem_cons_self b t₂)
      have hamem : a ∈ b :: t₂ := hp.mem_iff.mp (List.mem_cons_self a t₁)
      have hb₁ : b ∈ t₁ := by
        rcases List.mem_cons.mp hbmem with h | h
        · exact absurd h.symm hne
        · exact h
      have ha₂ : a ∈ t₂ := by
        rcases List.mem_cons.mp hamem with h | h
        · exact absurd h hne
        · exact h
      have hrab : r a b := (List.sorted_cons.mp hs₁).1 b hb₁
      have hrba : r b a := (List.sorted_cons.mp hs₂).1 a ha₂
      exact hne (ha a (List.mem_cons_self a t₁) b hbmem hrab hrba)
    subst hab
    have hrec := sortedPermEq hp.cons_inv (List.sorted_cons.mp hs₁).2
      (List.sorted_cons.mp hs₂).2
      (fun x hx y hy => ha x (List.mem_cons_of_mem a hx) y (List.mem_cons_of_mem a hy))
    rw [hrec]

/-- `mapMExcept` succeeds pointwise when every element maps to a success. -/
theorem mapMExcept_ok {α β ε : Type} {f : α → Except ε β} {g : α → β} :
    ∀ {l : List α}, (∀ x ∈ l, f x = .ok (g x)) →
      mapMExcept f l = .ok (l.map g)
  | [], _ => rfl
  | a :: l, h => by
    have ha := h a (List.mem_cons_self a l)
    have hl := mapMExcept_ok (fun x hx => h x (List.mem_cons_of_mem a hx))
    simp only [mapMExcept, ha, hl]
    rfl

/-- A valid input simulates successfully to the orchestrated result. -/
theorem simulate_ok {cfg : Config} {p : PolicyInput} (h : validateB p = true) :
    simulate cfg p = .ok (buildResult cfg p) := by
  simp [simulate, h]

/-! ## C1: risk bucket boundaries and the score-to-color mapping -/

/-- C1 counterexample: the claim that the lower-bound-inclusive bucketing
(`25 ↦ Low`, `50 ↦ Moderate`) is applied consistently in
`getRiskColorByScore` is false at the boundary scores: the spec-modelled
bucketing puts 25 in Low, but `getRiskColorByScore` returns the Moderate
color there, and similarly at 50 and 75. -/
theorem getRiskColorByScore_boundary_mismatch :
    specRiskLevel 25 = "Low" ∧
    getRiskColorByScore 25 = COLORS_moderate ∧
    getRiskColorByScore 25 ≠ getRiskColor (specRiskLevel 25) ∧
    getRiskColorByScore 50 ≠ getRiskColor (specRiskLevel 50) ∧
    getRiskColorByScore 75 ≠ getRiskColor (specRiskLevel 75) := by
  refine ⟨by decide, by decide, by decide, by decide, by decide⟩

/-- C1 (amended): `getRiskColorByScore` uses strict upper-bound-exclusive
thresholds, so it agrees with the color of the spec-modelled risk bucket
at every score except the exact boundaries 25, 50 and 75, where it
returns the next bucket's color. -/
theorem getRiskColorByScore_buckets (s : ℚ)
    (h25 : s ≠ 25) (h50 : s ≠ 50) (h75 : s ≠ 75) :
    getRiskColorByScore s = getRiskColor (specRiskLevel s) := by
  by_cases h1 : s < 25
  · have e1 : specRiskLevel s = "Low" := by simp [specRiskLevel, le_of_lt h1]
    have e2 : getRiskColorByScore s = COLORS_low := by simp [getRiskColorByScore, h1]
    rw [e1, e2]; decide
  · have h1' : 25 < s := lt_of_le_of_ne (not_lt.mp h1) (Ne.symm h25)
    by_cases h2 : s < 50
    · have e1 : specRiskLevel s = "Moderate" := by
        simp [specRiskLevel, not_le.mpr h1', le_of_lt h2]
      have e2 : getRiskColorByScore s = COLORS_moderate := by
        simp [getRiskColorByScore, h1, h2]
      rw [e1, e2]; decide
    · have h2' : 50 < s := lt_of_le_of_ne (not_lt.mp h2) (Ne.symm h50)
      by_cases h3 : s < 75
      · have e1 : specRiskLevel s = "High" := by
          simp [specRiskLevel, not_le.mpr h1', not_le.mpr h2', le_of_lt h3]
        have e2 : getRiskColorByScore s = COLORS_high := by
          simp [getRiskColorByScore, h1, h2, h3]
        rw [e1, e2]; decide
      · have h3' : 75 < s := lt_of_le_of_ne (not_lt.mp h3) (Ne.symm h75)
        have e1 : specRiskLevel s = "Critical" := by
          simp [specRiskLevel, not_le.mpr h1', not_le.mpr h2', not_le.mpr h3']
        have e2 : getRiskColorByScore s = COLORS_critical := by
          simp [getRiskColorByScore, h1, h2, h3]
        rw [e1, e2]; decide

/-- C1 witness: the amended consistency at the concrete interior score 30. -/
theorem getRiskColorByScore_buckets_witness :
    getRiskColorByScore 30 = getRiskColor (specRiskLevel 30) :=
  getRiskColorByScore_buckets 30 (by decide) (by decide) (by decide)

/-! ## C9: totality and fallback of the color and emoji helpers -/

/-- C9 counterexample: the claimed neutral fallback for unknown levels
fails twice on the real property-access semantics: `"Positive"` is
outside the four risk levels yet returns the positive blue (the COLORS
object also carries the sentiment keys), and `"Constructor"` lowercases
to the inherited `Object.prototype` member `constructor`, so the function
returns a truthy function object — not any of the seven colors and not
the neutral fallback. -/
theorem getRiskColor_positive_not_neutral :
    toLowerCase "Positive" ∉ ["low", "moderate", "high", "critical"] ∧
    getRiskColorFull "Positive" = .str COLORS_positive ∧
    COLORS_positive ≠ COLORS_neutral ∧
    toLowerCase "Constructor" ∉ ["low", "moderate", "high", "critical"] ∧
    getRiskColorFull "Constructor" = .inheritedMember "constructor" ∧
    JsValue.inheritedMember "constructor" ∉ (COLORS.map Prod.snd).map JsValue.str ∧
    JsValue.inheritedMember "constructor" ≠ JsValue.str COLORS_neutral := by
  refine ⟨by decide, by decide, by decide, by decide, by decide, by decide, by decide⟩

/-- C9 (amended): neither helper throws on any string input.
`getRiskEmoji` returns one of its five emoji, with the `❓` fallback
exactly outside the four risk levels (any casing).  `getRiskColor` under
full JavaScript property-access semantics splits into three cases on the
lowercased input: a COLORS key returns that entry's color string (so the
sentiment keys positive/negative/neutral hit the table too), an
`Object.prototype` member name returns the truthy inherited non-color
member, and only every remaining string falls back to the neutral color. -/
theorem riskColor_emoji_total (level : String) :
    (toLowerCase level ∈ COLORS.map Prod.fst →
      ∃ c, c ∈ COLORS.map Prod.snd ∧ getRiskColorFull level = .str c) ∧
    (toLowerCase level ∉ COLORS.map Prod.fst →
      toLowerCase level ∈ objectPrototypeKeys →
      getRiskColorFull level = .inheritedMember (toLowerCase level)) ∧
    (toLowerCase level ∉ COLORS.map Prod.fst →
      toLowerCase level ∉ objectPrototypeKeys →
      getRiskColorFull level = .str COLORS_neutral) ∧
    getRiskEmoji level ∈ ["✅", "⚠️", "🔴", "🚨", "❓"] ∧
    (toLowerCase level ∉ ["low", "moderate", "high", "critical"] →
      getRiskEmoji level = "❓") := by
  refine ⟨?_, ?_, ?_, ?_, ?_⟩
  · intro hmem
    obtain ⟨v, hv⟩ := lookup_isSome_of_mem_keys hmem
    exact ⟨v, lookup_mem_snd hv, by simp [getRiskColorFull, indexCOLORS, hv]⟩
  · intro hnot hproto
    simp [getRiskColorFull, indexCOLORS, lookup_eq_none_of_not_mem hnot, hproto]
  · intro hnot hnp
    simp [getRiskColorFull, indexCOLORS, lookup_eq_none_of_not_mem hnot, hnp]
  · unfold getRiskEmoji
    dsimp only
    split_ifs <;> simp
  · intro h
    simp only [List.mem_cons, List.not_mem_nil, or_false, not_or] at h
    unfold getRiskEmoji
    simp only [h.1, h.2.1, h.2.2.1, h.2.2.2, if_false]

/-- C9 witness: a string matching no COLORS key and no prototype member
takes the neutral and `❓` fallbacks, and `"Constructor"` hits the
inherited member case. -/
theorem riskColor_emoji_total_witness :
    getRiskColorFull "WeIrD" = .str COLORS_neutral ∧
    getRiskColorFull "Constructor" = .inheritedMember "constructor" ∧
    getRiskEmoji "WeIrD" = "❓" :=
  ⟨(riskColor_emoji_total "WeIrD").2.2.1 (by decide) (by decide),
   (by decide : toLowerCase "Constructor" = "constructor") ▸
     (riskColor_emoji_total "Constructor").2.1 (by decide) (by decide),
   (riskColor_emoji_total "WeIrD").2.2.2.2 (by decide)⟩

/-! ## C2: comparison requires at least two scenarios -/

/-- C2: a scenario list of length 0 or 1 makes `compare` fail with
`InvalidInputError` without running any simulation, and `handleComparison`
refuses to call the compare API when fewer than 2 scenario elements are
present. -/
theorem compare_requires_two_scenarios (cfg : Config)
    (scenarios : List NamedScenario) (elements : List ScenarioElement)
    (h1 : scenarios.length < 2) (h2 : elements.length < 2) :
    Snowflake.compare cfg scenarios = .error .invalidInput ∧
    handleComparison elements = none := by
  constructor
  · simp [Snowflake.compare, h1]
  · simp [handleComparison, h2]

/-- C2 witness: the empty scenario list and element list. -/
theorem compare_requires_two_scenarios_witness :
    Snowflake.compare testCfg [] = .error .invalidInput ∧
    handleComparison [] = none :=
  compare_requires_two_scenarios testCfg [] [] (by decide) (by decide)

/-! ## C3: range and policy-type validation -/

/-- C3: an input whose magnitude is outside `[-50, 50]`, whose duration is
outside `[1, 60]`, or whose policy type is not in the fixed closed set
makes `simulate` return `InvalidInputError` immediately, and the
scenario-entry form of simulator.js enforces exactly these bounds and
exactly this policy-type set. -/
theorem simulate_rejects_out_of_range (cfg : Config) (p : PolicyInput)
    (h : p.magnitude < -50 ∨ 50 < p.magnitude ∨ p.duration_months < 1 ∨
      60 < p.duration_months ∨ p.policy_type ∉ policyTypes) :
    simulate cfg p = .error .invalidInput ∧
    scenarioForm.magnitudeMin = -50 ∧ scenarioForm.magnitudeMax = 50 ∧
    scenarioForm.durationMin = 1 ∧ scenarioForm.durationMax = 60 ∧
    scenarioForm.policyOptions = policyTypes := by
  refine ⟨?_, rfl, rfl, rfl, rfl, rfl⟩
  have hv : validateB p = false := by
    rw [Bool.eq_false_iff]
    intro hv
    simp only [validateB, Bool.and_eq_true, decide_eq_true_eq] at hv
    obtain ⟨⟨⟨⟨⟨hm1, hm2⟩, hd1⟩, hd2⟩, hpt⟩, -⟩ := hv
    rcases h with h | h | h | h | h
    · linarith
    · linarith
    · omega
    · omega
    · exact h (by simpa using hpt)
  simp [simulate, hv]

/-- C3 witness: a magnitude of 60 is rejected. -/
theorem simulate_rejects_out_of_range_witness :
    simulate testCfg ⟨"Fuel Price Change", 60, 12, none, ""⟩ = .error .invalidInput ∧
    scenarioForm.magnitudeMin = -50 ∧ scenarioForm.magnitudeMax = 50 ∧
    scenarioForm.durationMin = 1 ∧ scenarioForm.durationMax = 60 ∧
    scenarioForm.policyOptions = policyTypes :=
  simulate_rejects_out_of_range testCfg ⟨"Fuel Price Change", 60, 12, none, ""⟩
    (by decide)

/-! ## C5: determinism of the pipeline -/

/-- C5: two calls to `simulate` with identical input and the same
baseline/model state return identical results, sentiment ratios and key
concerns included — the embedded pipeline is a pure function with no
hidden state or randomness. -/
theorem simulate_deterministic (cfg : Config) (p q : PolicyInput) (h : p = q) :
    simulate cfg p = simulate cfg q ∧
    ∀ r r', simulate cfg p = .ok r → simulate cfg q = .ok r' →
      r.sentiment_analysis = r'.sentiment_analysis ∧
      r.sentiment_analysis.key_concerns = r'.sentiment_analysis.key_concerns ∧
      r = r' := by
  subst h
  refine ⟨rfl, fun r r' hr hr' => ?_⟩
  rw [hr] at hr'
  obtain rfl : r = r' := by injection hr'
  exact ⟨rfl, rfl, rfl⟩

/-- C5 witness: repeat call on the concrete fixture. -/
theorem simulate_deterministic_witness :
    simulate testCfg testPolicy = simulate testCfg testPolicy :=
  (simulate_deterministic testCfg testPolicy testPolicy rfl).1

/-! ## C7: optionality and scoping of `affected_sectors` -/

/-- C7: `handleSimulation` sends `null` for `affected_sectors` exactly
when no sector checkbox is checked and the nonempty checked set otherwise;
an absent set makes all 8 sectors eligible, a supplied set stands for
itself, and a supplied sector outside the fixed 8-sector list is rejected
by validation. -/
theorem affected_sectors_contract :
    (∀ checked : List String,
      (affectedSectorsPayload checked = none ↔ checked = []) ∧
      (checked ≠ [] → affectedSectorsPayload checked = some checked)) ∧
    eligibleSectors none = allSectors ∧
    allSectors.length = 8 ∧
    (∀ l, eligibleSectors (some l) = l) ∧
    (∀ (cfg : Config) (p : PolicyInput) (l : List String) (s : String),
      p.affected_sectors = some l → s ∈ l → s ∉ allSectors →
      simulate cfg p = .error .invalidInput) := by
  refine ⟨?_, rfl, rfl, fun l => rfl, ?_⟩
  · intro checked
    cases checked with
    | nil => simp [affectedSectorsPayload]
    | cons a t => simp [affectedSectorsPayload]
  · intro cfg p l s hsec hmem hnot
    have hall : (l.all fun s' => allSectors.contains s') = false := by
      rw [List.all_eq_false]
      exact ⟨s, hmem, by simpa using hnot⟩
    have hv : validateB p = false := by
      simp [validateB, hsec, hall]
      exact fun _ _ _ _ _ => ⟨s, hmem, hnot⟩
    simp [simulate, hv]

/-- C7 witness: a nonempty checked set is forwarded as-is, and a sector
outside the fixed list is rejected. -/
theorem affected_sectors_contract_witness :
    affectedSectorsPayload ["Transport"] = some ["Transport"] ∧
    simulate testCfg ⟨"Fuel Price Change", 10, 12, some ["Nope"], ""⟩ =
      .error .invalidInput :=
  ⟨(affected_sectors_contract.1 ["Transport"]).2 (by decide),
   affected_sectors_contract.2.2.2.2 testCfg
     ⟨"Fuel Price Change", 10, 12, some ["Nope"], ""⟩ ["Nope"] "Nope"
     rfl (by decide) (by decide)⟩

/-! ## C8: division by zero in the fallback pie renderer -/

/-- C8: the fallback `renderPieChart` divides by the unguarded total of
the dataset: a dataset of three zero values (all sentiment ratios 0) has
total 0, and every slice angle `(value / total) * 2π` evaluates to NaN,
in both copies of the fallback implementation. -/
theorem renderPieChart_zero_total_nan (twoPi : JsNum) :
    jsSum [JsNum.num 0, JsNum.num 0, JsNum.num 0] = JsNum.num 0 ∧
    FallbackChart000.sliceAngles twoPi [JsNum.num 0, JsNum.num 0, JsNum.num 0] =
      [JsNum.nan, JsNum.nan, JsNum.nan] ∧
    FallbackChart001.sliceAngles twoPi [JsNum.num 0, JsNum.num 0, JsNum.num 0] =
      [JsNum.nan, JsNum.nan, JsNum.nan] := by
  have hsum : jsSum [JsNum.num 0, JsNum.num 0, JsNum.num 0] = JsNum.num 0 := by
    simp [jsSum, jsAdd]
  have hdiv : jsDiv (JsNum.num 0) (JsNum.num 0) = JsNum.nan := by
    simp [jsDiv]
  have hmul : ∀ t, jsMul JsNum.nan t = JsNum.nan := fun t => by cases t <;> rfl
  exact ⟨hsum, by simp [FallbackChart000.sliceAngles, hsum, hdiv, hmul],
    by simp [FallbackChart001.sliceAngles, hsum, hdiv, hmul]⟩

/-! ## C4: total ranking order of the comparison table -/

/-- The outcome `compare` computes for one scenario when validation
succeeds. -/
def scenarioOutcome (cfg : Config) (sc : NamedScenario) : ScenarioOutcome :=
  outcomeOf sc.name (buildResult cfg sc.policy)

/-- Two comparison fixtures for the witness. -/
def scenA : NamedScenario := ⟨"Option A", ⟨"Tax Reform", 10, 12, none, ""⟩⟩

/-- Second comparison fixture. -/
def scenB : NamedScenario := ⟨"Option B", ⟨"Subsidy Change", -15, 6, none, ""⟩⟩

/-- C4: on a valid scenario list with distinct names, `compare` succeeds
with a table ordered ascending by composite score, ties broken by
predicted rate and then name (the order `rowLE`), independent of the
input ordering (any permutation of the scenarios yields the identical
result); ranks are the 1-based positions `1, …, n`, and the
recommendation string names the rank-1 scenario. -/
theorem compare_ranking (cfg : Config) (s₁ s₂ : List NamedScenario)
    (hlen : 2 ≤ s₁.length)
    (hvalid : ∀ sc ∈ s₁, validateB sc.policy = true)
    (hnames : (s₁.map NamedScenario.name).Nodup)
    (hperm : s₁.Perm s₂) :
    ∃ res, Snowflake.compare cfg s₁ = .ok res ∧
      Snowflake.compare cfg s₂ = .ok res ∧
      res.comparison_table.map TableRow.rank = List.range' 1 s₁.length ∧
      List.Pairwise rowLE res.comparison_table ∧
      ∃ best, res.comparison_table.head? = some best ∧ best.rank = 1 ∧
        ∃ pre post, res.recommendation = pre ++ best.name ++ post := by
  have hvalid₂ : ∀ sc ∈ s₂, validateB sc.policy = true :=
    fun sc h => hvalid sc (hperm.mem_iff.mpr h)
  have hrun : ∀ (s : List NamedScenario), (∀ sc ∈ s, validateB sc.policy = true) →
      ∀ sc ∈ s, runScenario cfg sc = .ok (scenarioOutcome cfg sc) := by
    intro s hval sc hsc
    rw [runScenario, simulate_ok (hval sc hsc)]
    rfl
  have hmap₁ : mapMExcept (runScenario cfg) s₁ = .ok (s₁.map (scenarioOutcome cfg)) :=
    mapMExcept_ok (hrun s₁ hvalid)
  have hmap₂ : mapMExcept (runScenario cfg) s₂ = .ok (s₂.map (scenarioOutcome cfg)) :=
    mapMExcept_ok (hrun s₂ hvalid₂)
  have hnl₁ : ¬ s₁.length < 2 := by omega
  have hnl₂ : ¬ s₂.length < 2 := by rw [← hperm.length_eq]; omega
  have hcomp : ∀ (s : List NamedScenario), ¬ s.length < 2 →
      mapMExcept (runScenario cfg) s = .ok (s.map (scenarioOutcome cfg)) →
      Snowflake.compare cfg s = .ok
        ⟨((List.insertionSort outcomeLE (s.map (scenarioOutcome cfg))).enumFrom 1).map
            (fun x => rowOf x.1 x.2),
          comparisonRecommendation
            (List.insertionSort outcomeLE (s.map (scenarioOutcome cfg)))⟩ := by
    intro s hns hm
    unfold Snowflake.compare
    rw [if_neg hns, hm]
  have hsorted₁ := List.sorted_insertionSort outcomeLE (s₁.map (scenarioOutcome cfg))
  have hsorted₂ := List.sorted_insertionSort outcomeLE (s₂.map (scenarioOutcome cfg))
  have hps₁ := List.perm_insertionSort outcomeLE (s₁.map (scenarioOutcome cfg))
  have hps₂ := List.perm_insertionSort outcomeLE (s₂.map (scenarioOutcome cfg))
  have hnameso : ((s₁.map (scenarioOutcome cfg)).map ScenarioOutcome.name).Nodup := by
    rw [List.map_map]
    exact hnames
  have hanti : ∀ a ∈ List.insertionSort outcomeLE (s₁.map (scenarioOutcome cfg)),
      ∀ b ∈ List.insertionSort outcomeLE (s₁.map (scenarioOutcome cfg)),
      outcomeLE a b → outcomeLE b a → a = b := by
    intro a ha b hb h1 h2
    have hk : outcomeKey a = outcomeKey b := le_antisymm h1 h2
    simp only [outcomeKey] at hk
    have hp1 := toLex_inj.mp hk
    have hp2 := congrArg Prod.snd hp1
    have hp3 := toLex_inj.mp hp2
    have hname : a.name = b.name := congrArg Prod.snd hp3
    exact List.inj_on_of_nodup_map hnameso (hps₁.mem_iff.mp ha)
      (hps₁.mem_iff.mp hb) hname
  have ht12 : List.insertionSort outcomeLE (s₁.map (scenarioOutcome cfg)) =
      List.insertionSort outcomeLE (s₂.map (scenarioOutcome cfg)) :=
    sortedPermEq (hps₁.trans ((hperm.map (scenarioOutcome cfg)).trans hps₂.symm))
      hsorted₁ hsorted₂ hanti
  refine ⟨_, hcomp s₁ hnl₁ hmap₁, ?_, ?_, ?_, ?_⟩
  · rw [hcomp s₂ hnl₂ hmap₂, ← ht12]
  · rw [List.map_map]
    show List.map Prod.fst
      ((List.insertionSort outcomeLE (s₁.map (scenarioOutcome cfg))).enumFrom 1) = _
    rw [List.enumFrom_map_fst, (List.perm_insertionSort outcomeLE _).length_eq,
      List.length_map]
  · have h0 := List.enumFrom_map_snd 1 (List.insertionSort outcomeLE (s₁.map (scenarioOutcome cfg)))
    have hpw : List.Pairwise (fun x y => outcomeLE x.2 y.2)
        ((List.insertionSort outcomeLE (s₁.map (scenarioOutcome cfg))).enumFrom 1) := by
      have hs := hsorted₁
      rw [← h0] at hs
      exact List.pairwise_map.mp hs
    exact List.pairwise_map.mpr (hpw.imp (fun hab => hab))
  · have hlen₁ : (List.insertionSort outcomeLE (s₁.map (scenarioOutcome cfg))).length =
        s₁.length := by
      rw [(List.perm_insertionSort outcomeLE _).length_eq, List.length_map]
    cases hsort : List.insertionSort outcomeLE (s₁.map (scenarioOutcome cfg)) with
    | nil => rw [hsort] at hlen₁; simp at hlen₁; omega
    | cons b rest =>
      obtain ⟨w, hw⟩ : ∃ w, (b :: rest).getLast? = some w := by
        cases hlast : (b :: rest).getLast? with
        | none =>
          have := List.getLast?_isSome (l := b :: rest)
          simp [hlast] at this
        | some w => exact ⟨w, rfl⟩
      refine ⟨rowOf 1 b, ?_, rfl, "Based on the analysis, ", recTail b w, ?_⟩
      · rw [List.enumFrom_cons]
        rfl
      · simp only [comparisonRecommendation, hw]
        rfl

/-- C4 witness: two concrete scenarios compare to the same result in both
input orders. -/
theorem compare_ranking_witness :
    ∃ res, Snowflake.compare testCfg [scenA, scenB] = .ok res ∧
      Snowflake.compare testCfg [scenB, scenA] = .ok res := by
  obtain ⟨res, h1, h2, -, -, -⟩ :=
    compare_ranking testCfg [scenA, scenB] [scenB, scenA] (by decide)
      (by decide) (by decide) (List.Perm.swap scenB scenA [])
  exact ⟨res, h1, h2⟩

/-! ## C10: the compare-button invariant -/

/-- The invariant is preserved by every `addScenario`/`removeScenario`
step. -/
theorem stepUI_invariant {s : UIState}
    (hs : s.compareDisabled = decide (s.scenarios.length < 2)) (e : UIEvent) :
    (stepUI s e).compareDisabled = decide ((stepUI s e).scenarios.length < 2) := by
  cases e with
  | add id =>
    simp only [stepUI, List.length_append, List.length_cons, List.length_nil]
    by_cases h : 2 ≤ s.scenarios.length + (0 + 1)
    · simp [h, Nat.not_lt.mpr h]
    · have hlen : s.scenarios.length = 0 := by omega
      simp [h, hs, hlen]
  | remove id =>
    simp only [stepUI]
    by_cases h : (s.scenarios.filter (fun x => x != id)).length < 2
    · simp [h]
    · have hle := List.length_filter_le (fun x => x != id) s.scenarios
      have hlen : ¬ s.scenarios.length < 2 := by omega
      simp [h, hs, hlen]

/-! ## C6: the top-3 most-affected sectors -/

/-- C6: `most_affected` of every simulation result is the ordered top-3
selection of the sector impacts by absolute score descending with ties by
sector name ascending (the order `impactLE`): it has `min 3 n` entries, is
sorted by that order, and every selected entry ranks at or before every
non-selected one; the summary card of simulator.js consumes at most the
first 3 entries of the list it is given. -/
theorem mostAffected_top3 :
    (∀ impacts : List (String × ℚ),
      (mostAffected impacts).length = min 3 impacts.length ∧
      List.Sorted impactLE (mostAffected impacts) ∧
      ∃ rest, impacts.Perm (mostAffected impacts ++ rest) ∧
        ∀ a ∈ mostAffected impacts, ∀ b ∈ rest, impactLE a b) ∧
    (∀ (cfg : Config) (p : PolicyInput), validateB p = true →
      (simulate cfg p).map (fun r => r.sector_impacts.most_affected) =
        .ok (mostAffected (sectorImpacts cfg p))) ∧
    (∀ most : List (String × ℚ),
      summaryAffectedText most = summaryAffectedText (most.take 3) ∧
      (summaryAffectedNames most).length ≤ 3) := by
  refine ⟨?_, ?_, ?_⟩
  · intro impacts
    have hperm := List.perm_insertionSort impactLE impacts
    have hsorted := List.sorted_insertionSort impactLE impacts
    have hsplit : List.Pairwise impactLE
        ((List.insertionSort impactLE impacts).take 3 ++
          (List.insertionSort impactLE impacts).drop 3) := by
      rwa [List.take_append_drop]
    refine ⟨?_, ?_, (List.insertionSort impactLE impacts).drop 3, ?_, ?_⟩
    · rw [mostAffected, List.length_take, hperm.length_eq]
    · exact List.Pairwise.sublist (List.take_sublist 3 _) hsorted
    · rw [mostAffected, List.take_append_drop]
      exact hperm.symm
    · exact (List.pairwise_append.mp hsplit).2.2
  · intro cfg p h
    rw [simulate_ok h]
    rfl
  · intro most
    constructor
    · simp [summaryAffectedText, summaryAffectedNames, List.take_take]
    · simp only [summaryAffectedNames, List.length_map, List.length_take]
      omega

/-- C6 witness: the concrete fixture simulates with the specified
`most_affected` selection. -/
theorem mostAffected_top3_witness :
    validateB testPolicy = true ∧
    (simulate testCfg testPolicy).map (fun r => r.sector_impacts.most_affected) =
      .ok (mostAffected (sectorImpacts testCfg testPolicy)) :=
  ⟨by decide, mostAffected_top3.2.1 testCfg testPolicy (by decide)⟩

/-- C10: after every sequence of `addScenario`/`removeScenario` events
from the initial state (empty list, button disabled), the compare button
is disabled if and only if fewer than 2 scenarios are present. -/
theorem compareBtn_disabled_iff_lt_two (events : List UIEvent) :
    (runUI events).compareDisabled = decide ((runUI events).scenarios.length < 2) := by
  have main : ∀ (evs : List UIEvent) (s : UIState),
      s.compareDisabled = decide (s.scenarios.length < 2) →
      (evs.foldl stepUI s).compareDisabled =
        decide ((evs.foldl stepUI s).scenarios.length < 2) := by
    intro evs
    induction evs with
    | nil => exact fun s hs => hs
    | cons e evs ih => exact fun s hs => ih _ (stepUI_invariant hs e)
  exact main events initialUIState rfl

end Snowflake
